import Mathlib

/-!
Verification of the warranty-lookup backend (src/main.py, src/auth.py).

The Python source is shallowly embedded: pure fragments become Lean
functions, the process-global mutable state (login flag, cookie jar) is
passed explicitly, HTTP transport is abstracted by passing the response
bodies / post-login cookie jar as parameters, and exceptions become
`Except` values.  The stdlib HTML tokenizer (html.parser) is abstracted
as a stream of start-tag events `(tag, attrs)`; the repository's
`handle_starttag` logic is translated verbatim on top of those events.
-/

/-- Python `s[:n]` on a string (slicing by code points). -/
def pyTake (n : Nat) (s : String) : String := String.mk (s.toList.take n)

/-- The six characters Python's `str.strip()` removes for ASCII input. -/
def isPySpace (c : Char) : Bool :=
  " \t\n\r\x0b\x0c".toList.contains c

/-- Python `str.strip()` (ASCII whitespace): drop spaces from both ends. -/
def pyStrip (s : String) : String :=
  String.mk (((s.toList.dropWhile isPySpace).reverse.dropWhile isPySpace).reverse)

/-- Python `sep.join(parts)`. -/
def joinSep (sep : String) : List String → String
  | [] => ""
  | [x] => x
  | x :: xs => x ++ sep ++ joinSep sep xs

/-- Contiguous-sublist test on character lists (Python's `pat in s`). -/
def containsSub (pat : List Char) : List Char → Bool
  | [] => pat.isPrefixOf []
  | c :: t => pat.isPrefixOf (c :: t) || containsSub pat t

/-- Python `pat in s` substring test. -/
def strContains (s pat : String) : Bool := containsSub pat.toList s.toList

/-- Python `dict(pairs)` + `d.get(k)`: the value of the last pair with key
`k` (later duplicates overwrite), `none` when the key is absent.  Attribute
values are `Option String` because html.parser reports valueless attributes
as Python `None`. -/
def dictLast (d : List (String × Option String)) (k : String) : Option (Option String) :=
  (d.filter (fun p => p.1 == k)).getLast?.map (fun p => p.2)

/-- Python `d[k] = v` on an insertion-ordered dict: overwrite in place if
the key exists, else append. -/
def updateAssoc : List (String × Option String) → String → Option String → List (String × Option String)
  | [], k, v => [(k, v)]
  | p :: rest, k, v => if p.1 == k then (k, v) :: rest else p :: updateAssoc rest k v

/-- Lookup in a mapping built by `updateAssoc` (keys are unique, so the
first match is the binding). -/
def mapGet (m : List (String × Option String)) (k : String) : Option (Option String) :=
  (m.find? (fun p => p.1 == k)).map (fun p => p.2)

/-- Python `tag.lower()` (ASCII; html.parser tag names are ASCII). -/
def pyLower (s : String) : String := String.mk (s.toList.map Char.toLower)

/-- A start-tag event delivered by the html.parser tokenizer:
tag name and attribute list (attribute values `none` = Python `None`). -/
abbrev TagEvent := String × List (String × Option String)

namespace MainPy

/-- Embedding of `HiddenInputsParser.handle_starttag` from src/main.py lines 50-59,
acting on the accumulated `hidden_inputs` mapping. -/
def step (m : List (String × Option String)) (ev : TagEvent) : List (String × Option String) :=
  if pyLower ev.1 != "input" then m
  else if (dictLast ev.2 "type").getD none != some "hidden" then m
  else
    match (dictLast ev.2 "name").getD none with
    | none => m
    | some n =>
      if n == "" then m
      else updateAssoc m n ((dictLast ev.2 "value").getD (some ""))

/-- Feeding a whole event stream to a fresh `HiddenInputsParser`
(src/main.py lines 40-59): the resulting `hidden_inputs` dict. -/
def hidden_inputs (evs : List TagEvent) : List (String × Option String) :=
  evs.foldl step []

end MainPy

namespace AuthPy

/-- Embedding of `HiddenInputsParser.handle_starttag` from src/auth.py lines 63-72
(source text identical to the copy in src/main.py). -/
def step (m : List (String × Option String)) (ev : TagEvent) : List (String × Option String) :=
  if pyLower ev.1 != "input" then m
  else if (dictLast ev.2 "type").getD none != some "hidden" then m
  else
    match (dictLast ev.2 "name").getD none with
    | none => m
    | some n =>
      if n == "" then m
      else updateAssoc m n ((dictLast ev.2 "value").getD (some ""))

/-- Feeding a whole event stream to a fresh `HiddenInputsParser`
(src/auth.py lines 53-72): the resulting `hidden_inputs` dict. -/
def hidden_inputs (evs : List TagEvent) : List (String × Option String) :=
  evs.foldl step []

end AuthPy

/-- Specification-side view of one event: the (name, value) binding a
hidden `<input>` contributes, `none` when the event contributes nothing
(wrong tag, wrong type, or a name that is absent or empty). -/
def hiddenPair (ev : TagEvent) : Option (String × Option String) :=
  if pyLower ev.1 != "input" then none
  else if (dictLast ev.2 "type").getD none != some "hidden" then none
  else
    match (dictLast ev.2 "name").getD none with
    | none => none
    | some n =>
      if n == "" then none
      else some (n, (dictLast ev.2 "value").getD (some ""))

/-- Specification-side: the value contributed by the LAST event that binds
name `n` (rightmost occurrence wins). -/
def lastVal (evs : List TagEvent) (n : String) : Option (Option String) :=
  evs.reverse.findSome? (fun ev =>
    match hiddenPair ev with
    | some (k, v) => if k == n then some v else none
    | none => none)

theorem MainPy.step_eq_hiddenPair (m : List (String × Option String)) (ev : TagEvent) :
    MainPy.step m ev =
      match hiddenPair ev with
      | some (k, v) => updateAssoc m k v
      | none => m := by
  unfold MainPy.step hiddenPair
  split
  · rfl
  · split
    · rfl
    · split
      · rfl
      · split <;> rfl

theorem auth_step_eq_main_step : AuthPy.step = MainPy.step := rfl

theorem mapGet_cons (p : String × Option String) (m : List (String × Option String)) (n : String) :
    mapGet (p :: m) n = if p.1 == n then some p.2 else mapGet m n := by
  by_cases h : p.1 = n <;> simp [mapGet, h]

theorem mapGet_updateAssoc (m : List (String × Option String)) (k n : String) (v : Option String) :
    mapGet (updateAssoc m k v) n = if k == n then some v else mapGet m n := by
  induction m with
  | nil => simp [updateAssoc, mapGet_cons, mapGet]
  | cons p rest ih =>
    obtain ⟨a, b⟩ := p
    by_cases hak : a = k
    · subst hak
      by_cases han : a = n <;> simp [updateAssoc, mapGet_cons, han]
    · by_cases han : a = n <;> by_cases hkn : k = n
      · exact absurd (han.trans hkn.symm) hak
      · have hnk : ¬ n = k := fun h => hak (han.trans h)
        simp [updateAssoc, hak, mapGet_cons, han, hkn, hnk]
      · subst hkn
        simp [updateAssoc, hak, mapGet_cons, han, ih]
      · simp [updateAssoc, hak, mapGet_cons, han, hkn, ih]

theorem mapGet_foldl_step (evs : List TagEvent) (m : List (String × Option String)) (n : String) :
    mapGet (evs.foldl MainPy.step m) n = (lastVal evs n).or (mapGet m n) := by
  induction evs generalizing m with
  | nil => simp [lastVal, Option.or]
  | cons ev rest ih =>
    have hrev : lastVal (ev :: rest) n =
        (lastVal rest n).or
          (match hiddenPair ev with
            | some (k, v) => if k == n then some v else none
            | none => none) := by
      unfold lastVal
      rw [List.reverse_cons, List.findSome?_append]
      cases hp : hiddenPair ev with
      | none => simp [List.findSome?, hp]
      | some kv =>
        obtain ⟨k, v⟩ := kv
        by_cases hk : k = n <;> simp [List.findSome?, hp, hk]
    rw [List.foldl_cons, ih, hrev]
    cases hl : lastVal rest n with
    | some v => simp [Option.or]
    | none =>
      simp only [Option.or]
      rw [MainPy.step_eq_hiddenPair]
      cases hp : hiddenPair ev with
      | none => simp
      | some kv =>
        obtain ⟨k, v⟩ := kv
        simp only
        rw [mapGet_updateAssoc]
        by_cases hk : k = n <;> simp [hk]

theorem foldl_step_of_no_hidden (evs : List TagEvent) (m : List (String × Option String))
    (h : ∀ ev ∈ evs, hiddenPair ev = none) :
    evs.foldl MainPy.step m = m := by
  induction evs generalizing m with
  | nil => rfl
  | cons ev rest ih =>
    rw [List.foldl_cons, MainPy.step_eq_hiddenPair, h ev (by simp)]
    exact ih m (fun e he => h e (by simp [he]))

theorem containsSub_of_sub (pat l : List Char) (h : pat <:+: l) : containsSub pat l = true := by
  induction l with
  | nil =>
    have hp : pat = [] := List.infix_nil.mp h
    subst hp
    simp [containsSub]
  | cons c t ih =>
    obtain ⟨s, u, hsu⟩ := h
    cases s with
    | nil =>
      have hpre : pat <+: c :: t := ⟨u, by simpa using hsu⟩
      have hb : pat.isPrefixOf (c :: t) = true := by
        rw [ List.isPrefixOf_iff_prefix]
        exact hpre
      simp [containsSub, hb]
    | cons b s' =>
      have ht : pat <:+: t := ⟨s', u, by
        have : b :: (s' ++ pat ++ u) = c :: t := by simpa using hsu
        injection this⟩
      simp [containsSub, ih ht]

/-- One rendered cookie, `f"{c.name}={c.value}"` (src/main.py line 116). -/
def pairStr (c : String × String) : String := c.1 ++ "=" ++ c.2

/-- Rendering `"; ".join(f"{c.name}={c.value}" for c in SESSION.cookies)`
(src/main.py line 116 / src/auth.py line 180). -/
def renderCookies (jar : List (String × String)) : String :=
  joinSep "; " (jar.map pairStr)

/-- The marker substring the login code searches for
(src/main.py line 117 / src/auth.py line 181). -/
def loginMarker : String := "joomla_user_state=logged_in"

/-- The check `"joomla_user_state=logged_in" in cookies_str` — a SUBSTRING test over
the joined rendering, not an exact cookie lookup. -/
def loginCookieCheck (jar : List (String × String)) : Bool :=
  strContains (renderCookies jar) loginMarker

theorem pairStr_infix_renderCookies (jar : List (String × String)) (c : String × String)
    (h : c ∈ jar) : (pairStr c).toList <:+: (renderCookies jar).toList := by
  induction jar with
  | nil => cases h
  | cons d rest ih =>
    rcases List.mem_cons.mp h with rfl | hmem
    · cases rest with
      | nil => exact ⟨[], [], by simp [renderCookies, joinSep]⟩
      | cons e rest' =>
        refine ⟨[], ("; " ++ joinSep "; " ((e :: rest').map pairStr)).toList, ?_⟩
        simp [renderCookies, joinSep, String.toList]
    · cases rest with
      | nil => cases hmem
      | cons e rest' =>
        obtain ⟨s, t, hst⟩ := ih hmem
        refine ⟨(pairStr d ++ "; ").toList ++ s, t, ?_⟩
        simp only [renderCookies, List.map_cons, joinSep, String.toList, String.data_append,
          List.append_assoc] at hst ⊢
        rw [hst]

theorem loginCheck_of_mem (jar : List (String × String))
    (h : ("joomla_user_state", "logged_in") ∈ jar) : loginCookieCheck jar = true := by
  have hinf := pairStr_infix_renderCookies jar _ h
  have hm : loginMarker.toList = (pairStr ("joomla_user_state", "logged_in")).toList := rfl
  unfold loginCookieCheck strContains
  rw [hm]
  exact containsSub_of_sub _ _ hinf

/-- JSON values as decoded by Python's `json` module (objects keep their
key order; numbers are modelled as rationals — ample for the decimal
literals this portal emits). -/
inductive Json where
  | null
  | bool (b : Bool)
  | num (q : Rat)
  | str (text : String)
  | arr (items : List Json)
  | obj (entries : List (String × Json))

/-- Python truthiness of a decoded JSON value (`if not x`). -/
def truthy : Json → Bool
  | .null => false
  | .bool b => b
  | .num q => !(decide (q = 0))
  | .str s => !(s == "")
  | .arr xs => !xs.isEmpty
  | .obj kvs => !kvs.isEmpty

/-- Python `d.get(k)` on a decoded JSON object: last binding wins
(duplicate keys in a JSON text overwrite in `json.loads`). -/
def dictGet (kvs : List (String × Json)) (k : String) : Option Json :=
  ((kvs.filter (fun p => p.1 == k)).getLast?).map (fun p => p.2)

/-- Truthiness of a `d.get(k)` result (`None` is falsy). -/
def truthyO : Option Json → Bool
  | some j => truthy j
  | none => false

/-- Python `x or dflt` on a `d.get(k)` result. -/
def pyOr (v : Option Json) (dflt : Json) : Json :=
  match v with
  | some j => if truthy j then j else dflt
  | none => dflt

/-- The failure modes of the pipeline (shallow embedding of the raised
exceptions; each carries what the corresponding message interpolates). -/
inductive Err where
  | credsMissing
  | loginFailed
  | telaioMancante
  | statusFalseAnag (raw : Json)
  | statusFalseCop (raw : Json)
  | innerDecode (msg : String)
  | attributeError
  | typeError
  | keyError

/-- Outcome of one `login_if_needed()` call: the raised-or-returned
result, the value of `SESSION_LOGGED_IN` afterwards, and how many login
network sequences (GET login page + POST credentials) were performed. -/
structure LoginOutcome where
  result : Except Err Unit
  loggedIn : Bool
  loginSequences : Nat

/-- Embedding of `login_if_needed()` (src/main.py lines 70-122) with the process state
passed explicitly: `loggedIn` is `SESSION_LOGGED_IN` on entry, `credsOk`
whether both environment credentials are set, and `jar` the cookie jar
accumulated after the POST (transport abstracted). -/
def login_if_needed (credsOk loggedIn : Bool) (jar : List (String × String)) : LoginOutcome :=
  if loggedIn then ⟨Except.ok (), true, 0⟩
  else if !credsOk then ⟨Except.error Err.credsMissing, false, 0⟩
  else if loginCookieCheck jar then ⟨Except.ok (), true, 1⟩
  else ⟨Except.error Err.loginFailed, false, 1⟩

/-- Total number of login network sequences performed by two successive
`login_if_needed()` calls (the second sees the flag the first left). -/
def twoCallSeqs (credsOk b : Bool) (jar : List (String × String)) : Nat :=
  let o1 := login_if_needed credsOk b jar
  o1.loginSequences + (login_if_needed credsOk o1.loggedIn jar).loginSequences

/-- Is a field name exactly 32 hexadecimal characters? -/
def is32hex (s : String) : Bool :=
  s.length == 32 && s.toList.all (fun c => c.isDigit || ('a' ≤ c && c ≤ 'f') || ('A' ≤ c && c ≤ 'F'))

/-- Modelled from the spec: the CSRF-token selection step of
`CsrfTokenCache.ensureToken()` (spec §4.3).  The discovery/caching code is
not among the provided source files — src/main.py carries only its result,
the hardcoded field `619b2f60e46095f3ba7b1d334bb20bec=1` injected into
both portal calls.  Among the hidden fields of the fetched portal page,
select the field whose name is exactly 32 hex characters, defaulting an
empty value to "1"; with no such field, fail with CsrfTokenNotFound
reporting the candidate names (truncated). -/
def selectCsrfToken (page : List (String × String)) : Except String (String × String) :=
  match page.filter (fun p => is32hex p.1) with
  | [] => Except.error
      ("CsrfTokenNotFound: candidates=" ++ pyTake 120 (joinSep ", " (page.map (fun p => p.1))))
  | p :: _ => Except.ok (p.1, if p.2 == "" then "1" else p.2)

/-- Modelled from the spec: `ensureToken()` (spec §4.3) with the memo
state passed explicitly; the returned `Nat` counts portal-page fetches.
A cached token is returned as-is with no fetch; otherwise the page is
fetched once and the token selected from its hidden fields. -/
def ensureToken (cache : Option (String × String)) (page : List (String × String)) :
    Except String ((String × String) × Nat) :=
  match cache with
  | some t => Except.ok (t, 0)
  | none =>
    match selectCsrfToken page with
    | Except.error m => Except.error m
    | Except.ok t => Except.ok (t, 1)

/-- The CSRF form field hardcoded in src/main.py (lines 137, 153, 207). -/
def csrfFieldName : String := "619b2f60e46095f3ba7b1d334bb20bec"

/-- The `form_data` of the identity call (src/main.py lines 149-155). -/
def formDataAnagrafica (telaio : String) : List (String × String) :=
  [("option", "com_fordtrucks"),
   ("view", "warranty"),
   ("task", "warranty.getclaimwarrantyinfo"),
   (csrfFieldName, "1"),
   ("jform[telaio]", telaio)]

/-- The `form_data` of the coverage call (src/main.py lines 202-209). -/
def formDataCopertura (telaio : String) : List (String × String) :=
  [("option", "com_fordtrucks"),
   ("view", "warranty"),
   ("task", "warranty_telaio_search"),
   ("format", "json"),
   (csrfFieldName, "1"),
   ("telaio", telaio)]

/-- JSON whitespace accepted by Python's `json.loads`. -/
def isJsonWs (c : Char) : Bool :=
  " \t\n\r".toList.contains c

/-- Skip JSON whitespace. -/
def skipWs (cs : List Char) : List Char := cs.dropWhile isJsonWs

/-- Value of one hex digit (case-folded before the letter range test). -/
def hexDigitVal (c : Char) : Option Nat :=
  let n := c.toNat
  if 48 ≤ n ∧ n ≤ 57 then some (n - 48)
  else
    let m := (Char.toLower c).toNat
    if 97 ≤ m ∧ m ≤ 102 then some (m - 87) else none

/-- Parse the remainder of a JSON string literal (after the opening
quote): returns the decoded characters and the input after the closing
quote.  Escapes as in Python's json module; unescaped control characters
are rejected (strict mode).  First, the single-character escape table. -/
def escChar (e : Char) : Option Char :=
  if e == '"' then some '"'
  else if e == '\\' then some '\\'
  else if e == '/' then some '/'
  else if e == 'b' then some '\x08'
  else if e == 'f' then some '\x0c'
  else if e == 'n' then some '\n'
  else if e == 'r' then some '\r'
  else if e == 't' then some '\t'
  else none

def parseStringRest : List Char → Option (List Char × List Char)
  | [] => none
  | c :: rest =>
    if c == '"' then some ([], rest)
    else if c == '\\' then
      match rest with
      | [] => none
      | e :: more =>
        if e == 'u' then
          match more with
          | a :: b :: g :: d :: tail =>
            match hexDigitVal a, hexDigitVal b, hexDigitVal g, hexDigitVal d with
            | some wa, some wb, some wc, some wd =>
              (parseStringRest tail).map
                (fun q => (Char.ofNat (4096 * wa + 256 * wb + 16 * wc + wd) :: q.1, q.2))
            | _, _, _, _ => none
          | _ => none
        else
          match escChar e with
          | some ch => (parseStringRest more).map (fun q => (ch :: q.1, q.2))
          | none => none
    else if c.toNat < 32 then none
    else (parseStringRest rest).map (fun q => (c :: q.1, q.2))

/-- Numeric value of a digit string. -/
def digitsToNat (ds : List Char) : Nat :=
  ds.foldl (fun t c => 10 * t + (c.toNat - 48)) 0

/-- Parse the optional fraction part: digits after a dot. -/
def parseFrac : List Char → Option (List Char × List Char)
  | '.' :: r =>
    let fs := r.takeWhile Char.isDigit
    if fs.isEmpty then none else some (fs, r.dropWhile Char.isDigit)
  | cs => some ([], cs)

/-- Parse the optional exponent part: (negative?, digits, rest). -/
def parseExp : List Char → Option (Bool × List Char × List Char)
  | c :: r =>
    if c == 'e' || c == 'E' then
      let p := match r with
        | '+' :: rr => (false, rr)
        | '-' :: rr => (true, rr)
        | _ => (false, r)
      let es := p.2.takeWhile Char.isDigit
      if es.isEmpty then none else some (p.1, es, p.2.dropWhile Char.isDigit)
    else some (false, [], c :: r)
  | [] => some (false, [], [])

/-- The rational value of a JSON number literal. -/
def ratOfParts (neg : Bool) (ds fs : List Char) (en : Bool) (es : List Char) : Rat :=
  let m : Nat := digitsToNat (ds ++ fs)
  let base : Rat := (m : Rat) / ((10 : Rat) ^ fs.length)
  let signed : Rat := if neg then -base else base
  let e : Nat := digitsToNat es
  if en then signed / ((10 : Rat) ^ e) else signed * ((10 : Rat) ^ e)

/-- Parse a JSON number (leading zeros rejected, as in the json module). -/
def parseNum (cs : List Char) : Option (Json × List Char) :=
  let p : Bool × List Char :=
    if cs.headD ' ' == '-' then (true, cs.drop 1) else (false, cs)
  let ds := p.2.takeWhile Char.isDigit
  let r1 := p.2.dropWhile Char.isDigit
  if ds.isEmpty then none
  else if decide (ds.length > 1) && ds.headD '0' == '0' then none
  else
    match parseFrac r1 with
    | none => none
    | some (fs, r2) =>
      match parseExp r2 with
      | none => none
      | some (en, es, r3) => some (Json.num (ratOfParts p.1 ds fs en es), r3)

/-- Strip a literal keyword from the front of the input. -/
def stripKeyword (w : String) (cs : List Char) : Option (List Char) :=
  if w.toList.isPrefixOf cs then some (cs.drop w.length) else none

/-- Intermediate results of the fuel-indexed JSON parser. -/
inductive PRes where
  | v (j : Json)
  | vs (l : List Json)
  | kvs (l : List (String × Json))

/-- Parser modes: a single value, the elements of a non-empty array, or
the members of a non-empty object. -/
inductive PMode where
  | value
  | arrElems
  | objElems

/-- Fuel-indexed JSON parser (recursion is structural on the fuel so the
kernel can evaluate it).  The nonstandard `NaN`/`Infinity` extensions of
Python's json module are not modelled. -/
def parseJ : Nat → PMode → List Char → Option (PRes × List Char)
  | 0, _, _ => none
  | Nat.succ f, PMode.value, cs0 =>
    let cs := skipWs cs0
    match cs with
    | '"' :: rest =>
      match parseStringRest rest with
      | some (content, rest') => some (PRes.v (Json.str (String.mk content)), rest')
      | none => none
    | '[' :: rest =>
      match skipWs rest with
      | ']' :: r2 => some (PRes.v (Json.arr []), r2)
      | r =>
        match parseJ f PMode.arrElems r with
        | some (PRes.vs xs, r2) => some (PRes.v (Json.arr xs), r2)
        | _ => none
    | '{' :: rest =>
      match skipWs rest with
      | '}' :: r2 => some (PRes.v (Json.obj []), r2)
      | r =>
        match parseJ f PMode.objElems r with
        | some (PRes.kvs xs, r2) => some (PRes.v (Json.obj xs), r2)
        | _ => none
    | _ =>
      match stripKeyword "null" cs with
      | some r => some (PRes.v Json.null, r)
      | none =>
        match stripKeyword "true" cs with
        | some r => some (PRes.v (Json.bool true), r)
        | none =>
          match stripKeyword "false" cs with
          | some r => some (PRes.v (Json.bool false), r)
          | none =>
            match parseNum cs with
            | some (j, r) => some (PRes.v j, r)
            | none => none
  | Nat.succ f, PMode.arrElems, cs =>
    match parseJ f PMode.value cs with
    | some (PRes.v x, r1) =>
      match skipWs r1 with
      | ']' :: r2 => some (PRes.vs [x], r2)
      | ',' :: r2 =>
        match parseJ f PMode.arrElems r2 with
        | some (PRes.vs xs, r3) => some (PRes.vs (x :: xs), r3)
        | _ => none
      | _ => none
    | _ => none
  | Nat.succ f, PMode.objElems, cs0 =>
    match skipWs cs0 with
    | '"' :: rest =>
      match parseStringRest rest with
      | some (key, r1) =>
        match skipWs r1 with
        | ':' :: r3 =>
          match parseJ f PMode.value r3 with
          | some (PRes.v x, r4) =>
            match skipWs r4 with
            | '}' :: r6 => some (PRes.kvs [(String.mk key, x)], r6)
            | ',' :: r6 =>
              match parseJ f PMode.objElems r6 with
              | some (PRes.kvs xs, r7) => some (PRes.kvs ((String.mk key, x) :: xs), r7)
              | _ => none
            | _ => none
          | _ => none
        | _ => none
      | none => none
    | _ => none

/-- Python `json.loads`: parse one value and require only whitespace to
remain. -/
def json_loads (s : String) : Option Json :=
  let cs := s.toList
  match parseJ (2 * cs.length + 4) PMode.value cs with
  | some (PRes.v j, rest) => if (skipWs rest).isEmpty then some j else none
  | _ => none

example : json_loads "notjson" = none := rfl
example : json_loads "" = none := rfl
example : json_loads "\x7b\"a\": true\x7d" = some (Json.obj [("a", Json.bool true)]) := rfl
example : json_loads "[true, null]" = some (Json.arr [Json.bool true, Json.null]) := rfl

/-- Python `x.get(...)` requires a dict: AttributeError otherwise. -/
def asDict (j : Json) : Except Err (List (String × Json)) :=
  match j with
  | Json.obj kvs => Except.ok kvs
  | _ => Except.error Err.attributeError

/-- The keys of `cliente_veicolo` (src/main.py lines 167-174), in source
order; each is read from the payload with `payload.get(key)`. -/
def anagKeys : List String :=
  ["targa", "telaio", "rag_sociale", "piva_prop", "indirizzo", "paese"]

/-- Embedding of `chiamata_anagrafica` from `data = resp.json()` onwards
(src/main.py lines 160-179): status check, `data.get("data") or {}`,
and field extraction.  The returned mapping is `cliente_veicolo`. -/
def anagStep (body : Json) : Except Err (List (String × Option Json)) :=
  match body with
  | Json.obj outer =>
    if truthyO (dictGet outer "status") then
      match pyOr (dictGet outer "data") (Json.obj []) with
      | Json.obj pd => Except.ok (anagKeys.map (fun k => (k, dictGet pd k)))
      | _ => Except.error Err.attributeError
    else Except.error (Err.statusFalseAnag (Json.obj outer))
  | _ => Except.error Err.attributeError

/-- The message raised when the inner coverage payload fails to decode
(src/main.py lines 223-226); the Python `JSONDecodeError` text is
abstracted, the truncated preview `data_str[:200]` is kept verbatim. -/
def copDecodeMsg (dataStr : String) : String :=
  "Impossibile decodificare JSON interno copertura: JSONDecodeError: " ++ pyTake 200 dataStr

/-- The read `outer.get("data", "")` followed by the type requirement of
`json.loads` (a non-string argument raises TypeError). -/
def getDataStr (outer : List (String × Json)) : Except Err String :=
  match dictGet outer "data" with
  | none => Except.ok ""
  | some (Json.str s) => Except.ok s
  | some _ => Except.error Err.typeError

/-- The 23 detail keys copied from the first warranty entry
(src/main.py lines 242-264), in source order. -/
def detailKeys : List String :=
  ["VIN", "WARRANTY_TYPE", "WARRANTY_TYPE_ID", "WARRANTY_START_DATE", "WARRANTY_END_DATE",
   "REGISTRATION_DATE", "DEALER_CODE", "DEALER_NAME", "ENTITY_NAME", "HAS_VEHICLE_SC",
   "HAS_OILTOP", "HAS_WEARTEAR", "HAS_BATTERY", "HAS_FUSESBULBS", "HAS_DPFFILTER",
   "HAS_UPTIME", "UPTIME_NAME", "ADD_IS_OILANALYSIS", "ADD_IS_VEHICLEPICKUP",
   "ADD_IS_ANNUALMOT", "SC_OTHER_DESC", "FREETOWING_START_DATE", "FREETOWING_END_DATE"]

/-- Embedding of `warranty_list[0] if warranty_list else None` with Python subscript
semantics on whatever value `or []` produced. -/
def pyFirst (wl : Json) : Except Err (Option Json) :=
  if truthy wl then
    match wl with
    | Json.arr (x :: _) => Except.ok (some x)
    | Json.arr [] => Except.ok none
    | Json.str s =>
      match s.toList with
      | c :: _ => Except.ok (some (Json.str (String.mk [c])))
      | [] => Except.ok none
    | Json.obj _ => Except.error Err.keyError
    | _ => Except.error Err.typeError
  else Except.ok none

/-- Embedding of `chiamata_copertura` from the decoded inner document onwards
(src/main.py lines 229-272): `inner.get("Data") or {}`, HAS_WARRANTY,
WARRANTY_LIST handling and the `if first:` guard.  The returned mapping
is `copertura`. -/
def copInner (inner : Json) : Except Err (List (String × Option Json)) :=
  match inner with
  | Json.obj innerD =>
    match pyOr (dictGet innerD "Data") (Json.obj []) with
    | Json.obj ds =>
      let hasW := dictGet ds "HAS_WARRANTY"
      let wl := pyOr (dictGet ds "WARRANTY_LIST") (Json.arr [])
      match pyFirst wl with
      | Except.error e => Except.error e
      | Except.ok none => Except.ok [("HAS_WARRANTY", hasW)]
      | Except.ok (some f) =>
        if truthy f then
          match f with
          | Json.obj fd =>
            Except.ok (("HAS_WARRANTY", hasW) :: detailKeys.map (fun k => (k, dictGet fd k)))
          | _ => Except.error Err.attributeError
        else Except.ok [("HAS_WARRANTY", hasW)]
    | _ => Except.error Err.attributeError
  | _ => Except.error Err.attributeError

/-- Embedding of `chiamata_copertura` from `outer = resp.json()` onwards
(src/main.py lines 214-272): status check, inner decode with its
diagnostic message, then `copInner`. -/
def copStep (body : Json) : Except Err (List (String × Option Json)) :=
  match body with
  | Json.obj outer =>
    if truthyO (dictGet outer "status") then
      match getDataStr outer with
      | Except.error e => Except.error e
      | Except.ok s =>
        match json_loads s with
        | none => Except.error (Err.innerDecode (copDecodeMsg s))
        | some inner => copInner inner
    else Except.error (Err.statusFalseCop (Json.obj outer))
  | _ => Except.error Err.attributeError

/-- The envelope the `/verifica` route returns: success with the two
parsed records, or `{"success": False, "error": str(e)}` with the
stringified exception abstracted to the structured `Err`. -/
inductive Resp where
  | ok (cliente copertura : List (String × Option Json))
  | err (e : Err)

/-- Which network interactions a lookup performed, in order. -/
inductive CallTag where
  | loginSeq
  | callA
  | callB
deriving DecidableEq

/-- Embedding of `verifica_garanzia` (src/main.py lines 275-300) with process state
and transport abstracted: `credsOk`/`loggedIn0`/`jar` feed the
`login_if_needed()` performed inside `chiamata_anagrafica`; `bodyA` and
`bodyB` are the JSON bodies the two portal endpoints would return.  The
second component lists the network interactions performed. -/
def verifica (credsOk loggedIn0 : Bool) (jar : List (String × String))
    (bodyA bodyB : Json) (telaio : String) : Resp × List CallTag :=
  if pyStrip telaio == "" then (Resp.err Err.telaioMancante, [])
  else
    let lo := login_if_needed credsOk loggedIn0 jar
    let ltrace := List.replicate lo.loginSequences CallTag.loginSeq
    match lo.result with
    | Except.error e => (Resp.err e, ltrace)
    | Except.ok _ =>
      match anagStep bodyA with
      | Except.error e => (Resp.err e, ltrace ++ [CallTag.callA])
      | Except.ok cliente =>
        match copStep bodyB with
        | Except.error e => (Resp.err e, ltrace ++ [CallTag.callA, CallTag.callB])
        | Except.ok cop => (Resp.ok cliente cop, ltrace ++ [CallTag.callA, CallTag.callB])

theorem pyStrip_of_all_space (s : String) (h : s.toList.all isPySpace = true) : pyStrip s = "" := by
  unfold pyStrip
  have h1 : s.toList.dropWhile isPySpace = [] := by
    rw [List.dropWhile_eq_nil_iff]
    intro x hx
    exact List.all_eq_true.mp h x hx
  rw [h1]
  rfl

/-- C9 counterexample: the event stream of the single HTML tag
`<input type="hidden" name="" value="v">` — a hidden input that DOES carry
a name/value pair `("", "v")` — yields an EMPTY mapping, because the code
guards with `if name:` and the empty string is falsy.  This refutes
"a mapping containing exactly the name/value pairs of input elements
whose type attribute equals hidden". -/
theorem C9_counterexample :
    MainPy.hidden_inputs
        [("input", [("type", some "hidden"), ("name", some ""), ("value", some "v")])] = [] ∧
    dictLast [("type", some "hidden"), ("name", some ""), ("value", some "v")] "name"
        = some (some "") ∧
    dictLast [("type", some "hidden"), ("name", some ""), ("value", some "v")] "type"
        = some (some "hidden") :=
  ⟨rfl, rfl, rfl⟩

/-- C9 (amended): for every event stream, the extractor's mapping binds a
name `n` exactly to the value of the last hidden-input event carrying a
truthy (present and non-empty) name `n` — so it contains exactly the
name/value pairs of hidden inputs with a non-empty name, the last
occurrence winning — and when no event contributes a hidden-input binding
the mapping is empty.  The extractor is a total function, so it never
raises. -/
theorem C9_hidden_extractor_amended : ∀ evs : List TagEvent,
    (∀ n, mapGet (MainPy.hidden_inputs evs) n = lastVal evs n) ∧
    ((∀ ev ∈ evs, hiddenPair ev = none) → MainPy.hidden_inputs evs = []) := by
  intro evs
  constructor
  · intro n
    have hmain := mapGet_foldl_step evs [] n
    have hnil : mapGet [] n = none := rfl
    rw [hnil, Option.or_none] at hmain
    exact hmain
  · intro h
    exact foldl_step_of_no_hidden evs [] h

/-- Witness for C9: evaluated at a two-event stream with a duplicate name
(last value wins) and at a stream with no hidden inputs. -/
theorem C9_hidden_extractor_amended_witness :
    mapGet (MainPy.hidden_inputs
        [("input", [("type", some "hidden"), ("name", some "a"), ("value", some "x")]),
         ("input", [("type", some "hidden"), ("name", some "a"), ("value", some "y")])]) "a"
      = lastVal
        [("input", [("type", some "hidden"), ("name", some "a"), ("value", some "x")]),
         ("input", [("type", some "hidden"), ("name", some "a"), ("value", some "y")])] "a" ∧
    MainPy.hidden_inputs [("div", ([] : List (String × Option String)))] = [] :=
  ⟨(C9_hidden_extractor_amended _).1 "a",
   (C9_hidden_extractor_amended [("div", [])]).2 (by
      intro ev hev
      have : ev = ("div", []) := by simpa using hev
      subst this
      rfl)⟩

/-- C10: the two `HiddenInputsParser` definitions (src/auth.py lines
53-72 and src/main.py lines 40-59) are extensionally equal on every event
stream; in particular both skip a hidden input lacking a name attribute,
and both default a missing value attribute to the empty string. -/
theorem C10_parsers_extensionally_equal : ∀ evs : List TagEvent,
    AuthPy.hidden_inputs evs = MainPy.hidden_inputs evs ∧
    AuthPy.hidden_inputs [("input", [("type", some "hidden"), ("value", some "x")])] = [] ∧
    MainPy.hidden_inputs [("input", [("type", some "hidden"), ("value", some "x")])] = [] ∧
    AuthPy.hidden_inputs [("input", [("type", some "hidden"), ("name", some "n")])]
      = [("n", some "")] ∧
    MainPy.hidden_inputs [("input", [("type", some "hidden"), ("name", some "n")])]
      = [("n", some "")] := by
  intro evs
  refine ⟨?_, rfl, rfl, rfl, rfl⟩
  unfold AuthPy.hidden_inputs MainPy.hidden_inputs
  rw [auth_step_eq_main_step]

/-- C2 counterexample: the post-login jar holding the single cookie
`joomla_user_state=logged_inX` does NOT contain the marker cookie
`joomla_user_state` with value `logged_in`, yet login succeeds and sets
the flag, because the code tests the marker as a SUBSTRING of the
"; "-joined `name=value` rendering (src/main.py lines 116-117). -/
theorem C2_counterexample :
    (login_if_needed true false [("joomla_user_state", "logged_inX")]).loggedIn = true ∧
    (login_if_needed true false [("joomla_user_state", "logged_inX")]).result = Except.ok () ∧
    ("joomla_user_state", "logged_in") ∉ [("joomla_user_state", "logged_inX")] :=
  ⟨rfl, rfl, by decide⟩

/-- C2 (amended): login succeeds and sets the flag iff the "; "-joined
`name=value` rendering of the post-login jar contains the substring
`joomla_user_state=logged_in`; containing the exact marker cookie is
sufficient (but, per the counterexample, not necessary); when the
substring is absent the call raises AuthenticationFailed and leaves the
logged-in flag false. -/
theorem C2_login_marker_amended : ∀ jar : List (String × String),
    (("joomla_user_state", "logged_in") ∈ jar → loginCookieCheck jar = true) ∧
    (loginCookieCheck jar = true →
      login_if_needed true false jar = ⟨Except.ok (), true, 1⟩) ∧
    (loginCookieCheck jar = false →
      login_if_needed true false jar = ⟨Except.error Err.loginFailed, false, 1⟩) := by
  intro jar
  refine ⟨loginCheck_of_mem jar, ?_, ?_⟩
  · intro h
    simp [login_if_needed, h]
  · intro h
    simp [login_if_needed, h]

/-- Witness for C2: evaluated at a jar holding exactly the marker cookie,
and at the empty jar. -/
theorem C2_login_marker_amended_witness :
    loginCookieCheck [("joomla_user_state", "logged_in")] = true ∧
    login_if_needed true false [] = ⟨Except.error Err.loginFailed, false, 1⟩ :=
  ⟨(C2_login_marker_amended [("joomla_user_state", "logged_in")]).1 (by decide),
   (C2_login_marker_amended []).2.2 rfl⟩

/-- C3 counterexample: in an environment where the marker cookie never
appears, two successive `login_if_needed()` calls each perform the login
network sequence (the failed first call leaves `SESSION_LOGGED_IN` false),
so the sequence is performed twice — refuting "at most once for every
sequence of two successive calls". -/
theorem C3_counterexample : ¬ (twoCallSeqs true false [] ≤ 1) := by decide

/-- C3 (amended): two successive calls perform the login network sequence
at most once provided the first call succeeds; once the logged-in flag is
set, a call returns immediately with no network request.  (A failed
attempt leaves the flag false, and a later call retries the sequence.) -/
theorem C3_idempotent_amended : ∀ (credsOk b : Bool) (jar : List (String × String)),
    ((login_if_needed credsOk b jar).result = Except.ok () → twoCallSeqs credsOk b jar ≤ 1) ∧
    login_if_needed credsOk true jar = ⟨Except.ok (), true, 0⟩ := by
  intro credsOk b jar
  constructor
  · intro h
    by_cases hb : b = true
    · subst hb
      simp [twoCallSeqs, login_if_needed]
    · have hb' : b = false := by simpa using hb
      subst hb'
      by_cases hc : credsOk = true
      · subst hc
        by_cases hchk : loginCookieCheck jar = true
        · simp [twoCallSeqs, login_if_needed, hchk]
        · simp [login_if_needed, hchk] at h
      · have hc' : credsOk = false := by simpa using hc
        subst hc'
        simp [login_if_needed] at h
  · simp [login_if_needed]

/-- Witness for C3: evaluated with the flag already set — the call is a
no-op and the two-call sequence performs no login network sequence. -/
theorem C3_idempotent_amended_witness :
    (login_if_needed true true []).result = Except.ok () ∧
    twoCallSeqs true true [] ≤ 1 ∧
    login_if_needed true true [] = ⟨Except.ok (), true, 0⟩ :=
  ⟨rfl, (C3_idempotent_amended true true []).1 rfl, (C3_idempotent_amended true true []).2⟩

/-- C8: a chassis id that is empty or all whitespace strips to the empty
string, so the route returns the InvalidInput failure ("Telaio mancante")
with an empty network trace — no authentication and no portal call. -/
theorem C8_invalid_input : ∀ (credsOk b : Bool) (jar : List (String × String))
    (bodyA bodyB : Json) (telaio : String),
    telaio.toList.all isPySpace = true →
    verifica credsOk b jar bodyA bodyB telaio = (Resp.err Err.telaioMancante, []) := by
  intro credsOk b jar bodyA bodyB telaio h
  have hs := pyStrip_of_all_space telaio h
  simp [verifica, hs]

/-- Witness for C8: evaluated at the two-space chassis id. -/
theorem C8_invalid_input_witness :
    ("  ".toList.all isPySpace = true) ∧
    verifica true false [] Json.null Json.null "  " = (Resp.err Err.telaioMancante, []) :=
  ⟨rfl, C8_invalid_input true false [] Json.null Json.null "  " rfl⟩

/-- C1: CSRF token discovery (modelled from spec §4.3, the discovery code
being outside the provided sources) and injection (from src/main.py).
With a cached token, `ensureToken` returns it with no page fetch; with no
cache, the single hidden field whose name is 32 hex characters is
selected from the fetched page's hidden fields, an empty value defaulting
to "1"; with no such field the operation fails with CsrfTokenNotFound
carrying the truncated candidate names.  The discovered pair — hardcoded
as `619b2f60e46095f3ba7b1d334bb20bec=1` in src/main.py — is injected as a
form field into both downstream portal calls, and that name is indeed
32 hex characters. -/
theorem C1_csrf_token : ∀ (cache : Option (String × String)) (page : List (String × String))
    (telaio : String),
    (∀ t, cache = some t → ensureToken cache page = Except.ok (t, 0)) ∧
    (page.filter (fun p => is32hex p.1) = [] →
      ensureToken none page = Except.error
        ("CsrfTokenNotFound: candidates=" ++ pyTake 120 (joinSep ", " (page.map (fun p => p.1))))) ∧
    (∀ n v rest, page.filter (fun p => is32hex p.1) = (n, v) :: rest →
      ensureToken none page = Except.ok ((n, if v == "" then "1" else v), 1)) ∧
    (csrfFieldName, "1") ∈ formDataAnagrafica telaio ∧
    (csrfFieldName, "1") ∈ formDataCopertura telaio ∧
    is32hex csrfFieldName = true := by
  intro cache page telaio
  refine ⟨?_, ?_, ?_, ?_, ?_, rfl⟩
  · intro t ht
    subst ht
    rfl
  · intro h
    simp [ensureToken, selectCsrfToken, h]
  · intro n v rest h
    simp [ensureToken, selectCsrfToken, h]
  · simp [formDataAnagrafica]
  · simp [formDataCopertura]

/-- Witness for C1: evaluated at a page whose hidden fields are a
non-matching `return` field and a 32-hex-named field with empty value —
the latter is selected and its value defaults to "1". -/
theorem C1_csrf_token_witness :
    ([("return", "/home"), ("deadbeefdeadbeefdeadbeefdeadbeef", "")].filter
        (fun p => is32hex p.1) = [("deadbeefdeadbeefdeadbeefdeadbeef", "")]) ∧
    ensureToken none [("return", "/home"), ("deadbeefdeadbeefdeadbeefdeadbeef", "")]
      = Except.ok (("deadbeefdeadbeefdeadbeefdeadbeef", "1"), 1) := by
  refine ⟨rfl, ?_⟩
  exact (C1_csrf_token none [("return", "/home"), ("deadbeefdeadbeefdeadbeefdeadbeef", "")]
    "X").2.2.1 "deadbeefdeadbeefdeadbeefdeadbeef" "" [] rfl

/-- C6: identity call.  A falsy `status` (boolean, string or numeric
falsy form) raises PortalRequestRejected carrying the raw body; a truthy
`status` yields the identity record mapping each of the six fields from
`data` via `payload.get`, absent keys becoming None — never an error.
(The `data` field is scoped to an object, or absent/falsy which the code
replaces by `{}`, matching the portal wire shape of §6.) -/
theorem C6_identity_call : ∀ outer : List (String × Json),
    (truthyO (dictGet outer "status") = false →
      anagStep (Json.obj outer) = Except.error (Err.statusFalseAnag (Json.obj outer))) ∧
    (∀ pd, truthyO (dictGet outer "status") = true →
      pyOr (dictGet outer "data") (Json.obj []) = Json.obj pd →
      anagStep (Json.obj outer) = Except.ok
        [("targa", dictGet pd "targa"), ("telaio", dictGet pd "telaio"),
         ("rag_sociale", dictGet pd "rag_sociale"), ("piva_prop", dictGet pd "piva_prop"),
         ("indirizzo", dictGet pd "indirizzo"), ("paese", dictGet pd "paese")]) := by
  intro outer
  constructor
  · intro h
    simp [anagStep, h]
  · intro pd h hd
    simp [anagStep, anagKeys, h, hd]

/-- Witness for C6: the spec's example body yields plate "AB123CD" and an
absent company name; an empty-string status is rejected with the raw
body. -/
theorem C6_identity_call_witness :
    anagStep (Json.obj [("status", Json.bool true),
        ("data", Json.obj [("targa", Json.str "AB123CD"), ("telaio", Json.str "X1")])])
      = Except.ok
        [("targa", some (Json.str "AB123CD")), ("telaio", some (Json.str "X1")),
         ("rag_sociale", none), ("piva_prop", none), ("indirizzo", none), ("paese", none)] ∧
    anagStep (Json.obj [("status", Json.str "")])
      = Except.error (Err.statusFalseAnag (Json.obj [("status", Json.str "")])) := by
  constructor
  · exact (C6_identity_call [("status", Json.bool true),
      ("data", Json.obj [("targa", Json.str "AB123CD"), ("telaio", Json.str "X1")])]).2
      [("targa", Json.str "AB123CD"), ("telaio", Json.str "X1")] rfl rfl
  · exact (C6_identity_call [("status", Json.str "")]).1 rfl

/-- C4: coverage call.  For every outer body with truthy status whose
`data` field is a string the JSON decoder rejects, the call fails with
MalformedPortalResponse whose message ends with the 200-character
truncated preview of the offending string — an `Except.error`, not an
unhandled crash. -/
theorem C4_inner_decode_failure : ∀ (outer : List (String × Json)) (s : String),
    truthyO (dictGet outer "status") = true →
    dictGet outer "data" = some (Json.str s) →
    json_loads s = none →
    copStep (Json.obj outer) = Except.error (Err.innerDecode (copDecodeMsg s)) ∧
    ∃ pre, copDecodeMsg s = pre ++ pyTake 200 s := by
  intro outer s hst hdata hparse
  constructor
  · simp [copStep, hst, getDataStr, hdata, hparse]
  · exact ⟨"Impossibile decodificare JSON interno copertura: JSONDecodeError: ", rfl⟩

/-- Witness for C4: evaluated at `data = "notjson"`. -/
theorem C4_inner_decode_failure_witness :
    copStep (Json.obj [("status", Json.bool true), ("data", Json.str "notjson")])
      = Except.error (Err.innerDecode (copDecodeMsg "notjson")) ∧
    ∃ pre, copDecodeMsg "notjson" = pre ++ pyTake 200 "notjson" :=
  C4_inner_decode_failure [("status", Json.bool true), ("data", Json.str "notjson")]
    "notjson" rfl rfl rfl

/-- C5 counterexample: the decoded inner document whose WARRANTY_LIST is
the NON-empty list `[{}]` still yields a coverage record holding only
HAS_WARRANTY — the `if first:` guard drops the falsy first element `{}`
instead of taking the detail fields from it, refuting "when WARRANTY_LIST
is non-empty, the detail fields are taken from its first element". -/
theorem C5_counterexample :
    copInner (Json.obj [("Data", Json.obj
        [("HAS_WARRANTY", Json.bool true), ("WARRANTY_LIST", Json.arr [Json.obj []])])])
      = Except.ok [("HAS_WARRANTY", some (Json.bool true))] ∧
    Json.arr [Json.obj []] ≠ Json.arr [] := by
  constructor
  · rfl
  · simp

/-- C5 (amended): an empty or absent `Data.WARRANTY_LIST` yields a
successful coverage record holding only HAS_WARRANTY; a non-empty list
whose first element is the falsy `{}` does the same; the detail fields
are taken from the first element only when that element is a truthy
(non-empty) object. -/
theorem C5_coverage_amended : ∀ (innerD ds : List (String × Json)),
    pyOr (dictGet innerD "Data") (Json.obj []) = Json.obj ds →
    ((dictGet ds "WARRANTY_LIST" = none ∨ dictGet ds "WARRANTY_LIST" = some (Json.arr []) →
        copInner (Json.obj innerD) = Except.ok [("HAS_WARRANTY", dictGet ds "HAS_WARRANTY")]) ∧
     (∀ rest, dictGet ds "WARRANTY_LIST" = some (Json.arr (Json.obj [] :: rest)) →
        copInner (Json.obj innerD) = Except.ok [("HAS_WARRANTY", dictGet ds "HAS_WARRANTY")]) ∧
     (∀ fd rest, dictGet ds "WARRANTY_LIST" = some (Json.arr (Json.obj fd :: rest)) → fd ≠ [] →
        copInner (Json.obj innerD) = Except.ok
          (("HAS_WARRANTY", dictGet ds "HAS_WARRANTY")
            :: detailKeys.map (fun k => (k, dictGet fd k))))) := by
  intro innerD ds hData
  refine ⟨?_, ?_, ?_⟩
  · rintro (h | h)
    all_goals
      simp only [copInner]
      rw [hData]
      simp [pyOr, pyFirst, truthy, h]
  · intro rest h
    simp only [copInner]
    rw [hData]
    simp [pyOr, pyFirst, truthy, h]
  · intro fd rest h hfd
    have hfd' : fd.isEmpty = false := by
      cases fd with
      | nil => exact absurd rfl hfd
      | cons a l => rfl
    simp only [copInner]
    rw [hData]
    simp [pyOr, pyFirst, truthy, h, hfd']

/-- Witness for C5: evaluated at an inner document with an empty
WARRANTY_LIST — the record holds only HAS_WARRANTY and the outcome is a
success. -/
theorem C5_coverage_amended_witness :
    copInner (Json.obj [("Data", Json.obj
        [("HAS_WARRANTY", Json.bool false), ("WARRANTY_LIST", Json.arr [])])])
      = Except.ok [("HAS_WARRANTY", some (Json.bool false))] := by
  exact (C5_coverage_amended
    [("Data", Json.obj [("HAS_WARRANTY", Json.bool false), ("WARRANTY_LIST", Json.arr [])])]
    [("HAS_WARRANTY", Json.bool false), ("WARRANTY_LIST", Json.arr [])]
    rfl).1 (Or.inr rfl)

/-- C7: failure sequencing.  For a non-empty chassis id and a session
that authenticates, whenever Call A fails the lookup returns that
failure and Call B is never attempted; a falsy status on Call A raises
PortalRequestRejected for Call A, and — when Call A succeeded — a falsy
status on Call B makes the lookup return PortalRequestRejected for
Call B. -/
theorem C7_failure_sequencing : ∀ (b : Bool) (jar : List (String × String))
    (bodyA bodyB : Json) (telaio : String),
    pyStrip telaio ≠ "" →
    (b = true ∨ loginCookieCheck jar = true) →
    ((∀ e, anagStep bodyA = Except.error e →
        (verifica true b jar bodyA bodyB telaio).1 = Resp.err e ∧
        CallTag.callB ∉ (verifica true b jar bodyA bodyB telaio).2) ∧
     (∀ outerA, bodyA = Json.obj outerA → truthyO (dictGet outerA "status") = false →
        anagStep bodyA = Except.error (Err.statusFalseAnag bodyA)) ∧
     (∀ cliente outerB, anagStep bodyA = Except.ok cliente →
        bodyB = Json.obj outerB → truthyO (dictGet outerB "status") = false →
        (verifica true b jar bodyA bodyB telaio).1 = Resp.err (Err.statusFalseCop bodyB))) := by
  intro b jar bodyA bodyB telaio htel hlogin
  have hstrip : (pyStrip telaio == "") = false := by simpa using htel
  refine ⟨?_, ?_, ?_⟩
  · intro e he
    rcases hlogin with hb | hchk
    · subst hb
      simp [verifica, hstrip, login_if_needed, he]
    · cases b <;> simp [verifica, hstrip, login_if_needed, hchk, he]
  · intro outerA hA hst
    subst hA
    simp [anagStep, hst]
  · intro cliente outerB hok hB hst
    subst hB
    rcases hlogin with hb | hchk
    · subst hb
      simp [verifica, hstrip, login_if_needed, hok, copStep, hst]
    · cases b <;> simp [verifica, hstrip, login_if_needed, hchk, hok, copStep, hst]

/-- Witness for C7: a rejected Call A — the lookup returns the Call-A
rejection and the trace shows Call B was never performed. -/
theorem C7_failure_sequencing_witness :
    (verifica true true [] (Json.obj [("status", Json.bool false)]) Json.null "X").1
      = Resp.err (Err.statusFalseAnag (Json.obj [("status", Json.bool false)])) ∧
    CallTag.callB ∉ (verifica true true [] (Json.obj [("status", Json.bool false)]) Json.null "X").2 := by
  have h := C7_failure_sequencing true [] (Json.obj [("status", Json.bool false)]) Json.null "X"
    (by decide) (Or.inl rfl)
  have herr := h.2.1 [("status", Json.bool false)] rfl rfl
  exact h.1 (Err.statusFalseAnag (Json.obj [("status", Json.bool false)])) herr
